import Mathlib

/-!
# Verification of the Ax-LocalTools-MCP mediation layer

Shallow embedding of the decision logic of the Ax-LocalTools-MCP repository:

* the path resolver / sandbox guard (`src/lib/pathUtils.js`:
  `resolveUserPath`, `assertInHome`, and their composition
  `SecurityValidator.resolveAndAssert` in `src/tools/securityValidator.js`);
* the command risk classifier (`evaluate` in `src/lib/commandPolicy.js`,
  bundled at the end of `src/lib/pathUtils.js`);
* the recursive permission walker
  (`CrossPlatformPermissionManager.setPermissionsRecursive` in
  `src/index.js` and the error mapping in `src/tools/filePermissions.js`);
* the cross-platform change watcher (`CrossPlatformWatcher` in
  `src/tools/fileWatch.js`).

JavaScript strings are Lean `String`s, Node `path.posix` functions are
modelled segment-wise below, the file system is an abstract oracle record,
and the watcher's event concurrency is a small-step relation.
-/

set_option maxRecDepth 10000

/-- Decidable equality for `Except` values (needed so witnesses can be
checked by `decide`). -/
instance {ε α : Type} [DecidableEq ε] [DecidableEq α] :
    DecidableEq (Except ε α)
  | .error a, .error b =>
    if h : a = b then isTrue (by rw [h])
    else isFalse (by intro he; cases he; exact h rfl)
  | .error _, .ok _ => isFalse (by intro h; cases h)
  | .ok _, .error _ => isFalse (by intro h; cases h)
  | .ok a, .ok b =>
    if h : a = b then isTrue (by rw [h])
    else isFalse (by intro he; cases he; exact h rfl)

namespace AxMcp

/-! ## JavaScript string builtins

Boolean string tests used by the source (`String.prototype.startsWith`,
`endsWith`, `includes`), modelled on the underlying character lists. -/

def jsStartsWith (s pre : String) : Bool :=
  pre.data.isPrefixOf s.data

def jsEndsWith (s suf : String) : Bool :=
  suf.data.isSuffixOf s.data

def containsAt (sub : List Char) : List Char → Bool
  | [] => sub.isPrefixOf []
  | c :: rest => sub.isPrefixOf (c :: rest) || containsAt sub rest

def jsIncludes (s sub : String) : Bool :=
  containsAt sub.data s.data

/-- `String.prototype.toLowerCase` (ASCII range, which is all the source's
patterns and comparisons use). -/
def jsToLower (s : String) : String :=
  String.mk (s.data.map Char.toLower)

/-- ECMAScript whitespace recognized by `String.prototype.trim` (ASCII
part). -/
def jsSpace (c : Char) : Bool :=
  c = ' ' || c = '\t' || c = '\n' || c = '\r' || c = '\x0b' || c = '\x0c'

/-- `String.prototype.trim`: strip whitespace from both ends. -/
def jsTrim (s : String) : String :=
  String.mk (((s.data.dropWhile jsSpace).reverse.dropWhile jsSpace).reverse)

/-! ## Platform capability model (`src/lib/platformUtils.js`)

`PlatformUtils` reads `process.platform` once; everything else is derived
from it.  `Env` also carries the ambient values the Node `path` and `os`
modules read: the process home directory (`os.homedir()`) and current
working directory (used by `path.resolve` on relative inputs). -/

inductive Platform
  | windows
  | macos
  | linux
  | other
  deriving DecidableEq, Repr

structure Env where
  platform : Platform
  /-- `os.homedir()`, as a raw string before `path.resolve`. -/
  homedir : String
  /-- `process.cwd()`, assumed absolute (Node guarantees this). -/
  cwd : String
  deriving DecidableEq, Repr

def Env.isWindows (env : Env) : Bool := env.platform = Platform.windows

/-- `platformUtils.isUnix = isMacOS || isLinux`. -/
def Env.isUnix (env : Env) : Bool :=
  env.platform = Platform.macos ∨ env.platform = Platform.linux

/-- `getPathConfig().maxLength` (`src/lib/platformUtils.js` line 49). -/
def maxPathLength (env : Env) : Nat :=
  if env.isWindows then 32767 else 4096

/-- `supportsRecursiveWatch()` (`src/lib/platformUtils.js` lines 65-69):
macOS and Windows support native recursive watching. -/
def supportsRecursiveWatch (env : Env) : Bool :=
  env.platform = Platform.macos ∨ env.platform = Platform.windows

/-! ## Node `path.posix` model

Node's posix path functions, modelled segment-wise.  `path.normalize`
splits on `/`, drops empty and `.` segments, resolves `..` (keeping
leading `..`s only for relative paths), and restores an absolute prefix
and a trailing separator. -/

/-- Split a character list at a separator, preserving empty segments, as
`p.split('/')` does in JavaScript. -/
def splitChar (sep : Char) : List Char → List (List Char)
  | [] => [[]]
  | c :: rest =>
    let r := splitChar sep rest
    if c = sep then [] :: r
    else
      match r with
      | s :: ss => (c :: s) :: ss
      | [] => [[c]]

/-- The `/`-separated segments of a path string. -/
def psplit (p : String) : List String :=
  (splitChar '/' p.data).map (fun l => String.mk l)

/-- Glue segments back together with `/` (Node's join of the processed
segments). -/
def joinSegs : List String → String
  | [] => ""
  | [s] => s
  | s :: rest => s ++ "/" ++ joinSegs rest

/-- Core of Node's `normalizeString`: process segments left to right with a
stack; `allowAbove` is `allowAboveRoot` (true for relative paths). -/
def normSegsAux (allowAbove : Bool) : List String → List String → List String
  | [], acc => acc.reverse
  | s :: rest, acc =>
    if s = "" ∨ s = "." then normSegsAux allowAbove rest acc
    else if s = ".." then
      match acc with
      | t :: acc' =>
        if t = ".." then
          (if allowAbove then normSegsAux allowAbove rest (".." :: t :: acc')
           else normSegsAux allowAbove rest (t :: acc'))
        else normSegsAux allowAbove rest acc'
      | [] =>
        if allowAbove then normSegsAux allowAbove rest [".."]
        else normSegsAux allowAbove rest []
    else normSegsAux allowAbove rest (s :: acc)

/-- Node `path.posix.normalize`. -/
def pnormalize (p : String) : String :=
  if p = "" then "." else
  let abs := jsStartsWith p "/"
  let trail := jsEndsWith p "/"
  let core := joinSegs (normSegsAux (!abs) (psplit p) [])
  if core = "" then
    (if abs then "/" else if trail then "./" else ".")
  else
    let core' := if trail then core ++ "/" else core
    if abs then "/" ++ core' else core'

/-- Node `path.posix.resolve` with a single argument, relative inputs being
resolved against the process working directory `cwd`. -/
def presolve (cwd p : String) : String :=
  let combined := if jsStartsWith p "/" then p else cwd ++ "/" ++ p
  let abs := jsStartsWith combined "/"
  let core := joinSegs (normSegsAux (!abs) (psplit combined) [])
  if abs then (if core = "" then "/" else "/" ++ core)
  else (if core = "" then "." else core)

/-- Node `path.posix.join` on two arguments: empty parts are skipped, the
rest are glued with `/` and normalized; all-empty input yields `"."`. -/
def pjoin (a b : String) : String :=
  let parts := [a, b].filter (· ≠ "")
  if parts = [] then "." else pnormalize (joinSegs parts)

def commonPrefixLen : List String → List String → Nat
  | a :: as, b :: bs => if a = b then commonPrefixLen as bs + 1 else 0
  | _, _ => 0

/-- Node `path.posix.relative`: resolve both ends, drop the common segment
prefix, then go up with `..` and down into the target. -/
def prelative (cwd from' to' : String) : String :=
  let f := presolve cwd from'
  let t := presolve cwd to'
  if f = t then "" else
  let fs := (psplit f).filter (· ≠ "")
  let ts := (psplit t).filter (· ≠ "")
  let c := commonPrefixLen fs ts
  joinSegs (List.replicate (fs.length - c) ".." ++ ts.drop c)

/-- Node `path.posix.basename` (without an extension argument). -/
def pbasename (p : String) : String :=
  (((psplit p).filter (· ≠ "")).getLast?).getD ""

/-! ## Platform-dependent `path` operations

The Node `path` module dispatches on the host platform.  The embedding
abstracts it as a record of operations; `posixOps cwd` is the concrete
posix instance defined above, while Windows claims quantify over an
arbitrary instance. -/

structure PathOps where
  isAbsolute : String → Bool
  normalize : String → String
  resolve1 : String → String
  join2 : String → String → String
  relative2 : String → String → String
  /-- `path.sep` (a single character on every platform). -/
  sepChar : Char

def PathOps.sepStr (ops : PathOps) : String := String.mk [ops.sepChar]

def posixOps (cwd : String) : PathOps where
  isAbsolute p := jsStartsWith p "/"
  normalize := pnormalize
  resolve1 := presolve cwd
  join2 := pjoin
  relative2 := prelative cwd
  sepChar := '/'

/-! ## Path resolver / sandbox guard (`src/lib/pathUtils.js`) -/

/-- Error kinds raised by the guard.  `invalidInput` is the coded-less
`Error('路径参数无效')` of `resolveUserPath`; the rest carry the `err.code`
value the source attaches. -/
inductive PathErr
  | invalidInput
  | uncDenied
  | longPathDenied
  | pathTooLong
  | invalidPath
  | symlinkDenied
  | pathDenied
  deriving DecidableEq, Repr

/-- `platformUtils.getHomeDirectory()`: `path.resolve(os.homedir())`. -/
def getHomeDirectory (ops : PathOps) (env : Env) : String :=
  ops.resolve1 env.homedir

/-- Regex `^\\\\[^\\]+\\[^\\]+` of `platformUtils.isUNCPath`, on the
character list: two backslashes, a nonempty backslash-free run, a
backslash, then at least one further backslash-free character. -/
def uncShape : List Char → Bool
  | '\\' :: '\\' :: rest =>
    let seg1 := rest.takeWhile (· ≠ '\\')
    let rest1 := rest.dropWhile (· ≠ '\\')
    match rest1 with
    | '\\' :: c :: _ => !seg1.isEmpty && c ≠ '\\'
    | _ => false
  | _ => false

/-- `platformUtils.isUNCPath` (returns false off Windows). -/
def isUNCPath (env : Env) (p : String) : Bool :=
  env.isWindows && uncShape p.data

/-- `platformUtils.isLongPath`: Windows and starts with `\\?\`. -/
def isLongPath (env : Env) (p : String) : Bool :=
  env.isWindows && jsStartsWith p "\\\\?\\"

/-- `platformUtils.normalizePath`: empty input maps to the empty string,
everything else goes through the platform `path.normalize`. -/
def normalizePathU (ops : PathOps) (p : String) : String :=
  if p = "" then "" else ops.normalize p

/-- The hard-coded project prefix of `resolveUserPath` (line 29). -/
def projectRoot : String := "/Users/xueyuheng/research/mcp"

/-- The hard-coded sandbox prefix of `resolveUserPath` (line 31). -/
def guerrillaPath : String := "/users/xueyuheng/research/guerrilla"

/-- The candidate path (`base`) `resolveUserPath` builds before
normalization (lines 26-64 of `src/lib/pathUtils.js`). -/
def ruBase (ops : PathOps) (env : Env) (input : String)
    (workingDir : Option String) : String :=
  let home := getHomeDirectory ops env
  if jsStartsWith input projectRoot then
    match workingDir with
    | some w => ops.join2 w (ops.relative2 projectRoot input)
    | none => input
  else if jsStartsWith input guerrillaPath then
    match workingDir with
    | some w => ops.join2 w (ops.relative2 guerrillaPath input)
    | none => input
  else if ops.isAbsolute input then input
  else
    match workingDir with
    | some w => ops.join2 w input
    | none => ops.join2 home input

/-- The normalized candidate (`normalizedPath`, line 67). -/
def ruNormalized (ops : PathOps) (env : Env) (input : String)
    (workingDir : Option String) : String :=
  normalizePathU ops (ruBase ops env input workingDir)

/-- `resolveUserPath` (`src/lib/pathUtils.js` lines 20-95).  The UNC,
long-path and length checks run only inside the `isWindows` branch. -/
def resolveUserPath (ops : PathOps) (env : Env) (input : String)
    (workingDir : Option String) (allowUNC allowLongPath : Bool) :
    Except PathErr String :=
  if input = "" then .error .invalidInput
  else
    let normalizedPath := ruNormalized ops env input workingDir
    if env.isWindows then
      if isUNCPath env normalizedPath ∧ ¬allowUNC then .error .uncDenied
      else if isLongPath env normalizedPath ∧ ¬allowLongPath then
        .error .longPathDenied
      else if normalizedPath.length > maxPathLength env then
        .error .pathTooLong
      else .ok (ops.resolve1 normalizedPath)
    else .ok (ops.resolve1 normalizedPath)

/-- Abstract file-system oracle for the symlink handling of
`assertInHome`: existence, link-ness and `fs.realpathSync`. -/
structure FileSys where
  fsExists : String → Bool
  fsIsSymlink : String → Bool
  fsRealpath : String → String

/-- `assertInHome` (`src/lib/pathUtils.js` lines 105-159).  On Unix an
existing symlink is rejected outright unless `allowSymlinks` is true (the
`E_SYMLINK_DENIED` throw is swallowed when `strictMode` is false); with
`allowSymlinks` the real target replaces the candidate.  The confinement
check compares `path.resolve(target) + sep` against
`path.resolve(home) + sep`, case-insensitively on Windows. -/
def assertInHome (ops : PathOps) (env : Env) (fsys : FileSys)
    (absPath : String) (allowSymlinks strictMode : Bool) :
    Except PathErr String :=
  if absPath = "" then .error .invalidPath
  else
    let home := getHomeDirectory ops env
    let homeSeparator := ops.resolve1 home ++ ops.sepStr
    let target0 := ops.resolve1 absPath
    let afterLink : Except PathErr String :=
      if env.isUnix ∧ fsys.fsExists target0 ∧ fsys.fsIsSymlink target0 then
        if allowSymlinks then .ok (fsys.fsRealpath target0)
        else if strictMode then .error .symlinkDenied
        else .ok target0
      else .ok target0
    match afterLink with
    | .error e => .error e
    | .ok target =>
      let targetSeparator := ops.resolve1 target ++ ops.sepStr
      if env.isWindows then
        if jsStartsWith (jsToLower targetSeparator) (jsToLower homeSeparator) then
          .ok target
        else .error .pathDenied
      else
        if jsStartsWith targetSeparator homeSeparator then .ok target
        else .error .pathDenied

/-- `SecurityValidator.resolveAndAssert`
(`src/tools/securityValidator.js` lines 26-33): resolve with the caller's
working directory, then confine with the default options; a confinement
failure is rewrapped as `ERR.PATH_DENIED`. -/
def resolveAndAssert (ops : PathOps) (env : Env) (fsys : FileSys)
    (filePath : String) (workingDirectory : Option String) :
    Except PathErr String :=
  match resolveUserPath ops env filePath workingDirectory false false with
  | .error e => .error e
  | .ok abs =>
    match assertInHome ops env fsys abs false true with
    | .ok r => .ok r
    | .error _ => .error .pathDenied

/-- Spec-level notion used by the claims: `p` is `root` itself or a
descendant of `root`, compared on resolved paths. -/
def isUnderRoot (ops : PathOps) (root p : String) : Prop :=
  ops.resolve1 p = ops.resolve1 root ∨
    (ops.resolve1 root ++ ops.sepStr).data <+: (ops.resolve1 p).data

instance (ops : PathOps) (root p : String) :
    Decidable (isUnderRoot ops root p) :=
  inferInstanceAs (Decidable (_ = _ ∨ _ <+: _))

/-- The confinement root the code actually enforces: the (resolved) home
directory. -/
def isUnderHome (ops : PathOps) (env : Env) (p : String) : Prop :=
  isUnderRoot ops (getHomeDirectory ops env) p

instance (ops : PathOps) (env : Env) (p : String) :
    Decidable (isUnderHome ops env p) :=
  inferInstanceAs (Decidable (isUnderRoot _ _ _))

/-! ## Command risk classifier (`src/lib/commandPolicy.js`)

The rule tables are JavaScript regular expressions, all carrying the `i`
flag and none anchored.  They are embedded as a small regex AST with a
fuelled backtracking matcher; the `i` flag is modelled by matching the
lower-cased command against lower-cased literals, exactly as ECMAScript
case-insensitive matching behaves on these ASCII patterns. -/

inductive Rx
  | eps
  | ch (p : Char → Bool)
  | cat (a b : Rx)
  | alt (a b : Rx)
  | star (a : Rx)
  | wordB

namespace Rx

def size : Rx → Nat
  | eps => 1
  | ch _ => 1
  | cat a b => size a + size b + 1
  | alt a b => size a + size b + 1
  | star a => size a + 1
  | wordB => 1

/-- ECMAScript word character (`\w`, the boundary alphabet of `\b`). -/
def wordChar (c : Char) : Bool := c.isAlphanum || c = '_'

/-- `\b` holds between `prev` and the next character iff exactly one side
is a word character. -/
def atBoundary (prev : Option Char) (s : List Char) : Bool :=
  let l := match prev with | some c => wordChar c | none => false
  let r := match s with | c :: _ => wordChar c | [] => false
  xor l r

/-- Fuelled backtracking matcher in continuation-passing style; `prev` is
the character before the current position (for `\b`). -/
def mrun : Nat → Rx → Option Char → List Char →
    (Option Char → List Char → Bool) → Bool
  | 0, _, _, _, _ => false
  | n + 1, rx, prev, s, k =>
    match rx with
    | eps => k prev s
    | ch p =>
      match s with
      | [] => false
      | c :: rest => p c && k (some c) rest
    | cat a b => mrun n a prev s (fun prev' s' => mrun n b prev' s' k)
    | alt a b => mrun n a prev s k || mrun n b prev s k
    | star a =>
      k prev s ||
        mrun n a prev s (fun prev' s' =>
          if s'.length < s.length then mrun n (star a) prev' s' k else false)
    | wordB => atBoundary prev s && k prev s

/-- Enough fuel for `mrun` on the patterns and strings below. -/
def fuelFor (rx : Rx) (s : List Char) : Nat :=
  (size rx + 4) * (s.length + 4)

/-- Try to match starting at the current position. -/
def matchHere (rx : Rx) (prev : Option Char) (s : List Char) : Bool :=
  mrun (fuelFor rx s) rx prev s (fun _ _ => true)

/-- Unanchored search, as `RegExp.prototype.test`. -/
def searchFrom (rx : Rx) (prev : Option Char) : List Char → Bool
  | [] => matchHere rx prev []
  | c :: rest => matchHere rx prev (c :: rest) || searchFrom rx (some c) rest

/-- `pattern.test(cmd)` for an `i`-flagged pattern whose literals are
stored lower-cased. -/
def rtest (rx : Rx) (cmd : String) : Bool :=
  searchFrom rx none (jsToLower cmd).data

/-- Literal string (already lower-case in the tables below). -/
def lit (s : String) : Rx :=
  s.data.foldr (fun c acc => cat (ch (· = c)) acc) eps

/-- `\s`: ECMAScript whitespace (ASCII part). -/
def wsChar (c : Char) : Bool :=
  c = ' ' || c = '\t' || c = '\n' || c = '\r' || c = '\x0b' || c = '\x0c'

def ws1 : Rx := ch wsChar

def wsPlus : Rx := cat ws1 (star ws1)

def wsStar : Rx := star ws1

/-- ECMAScript `.` (anything but a line terminator). -/
def dotAny : Rx := ch (fun c => c ≠ '\n' && c ≠ '\r')

def dotStar : Rx := star dotAny

def cat3 (a b c : Rx) : Rx := cat a (cat b c)

def cat4 (a b c d : Rx) : Rx := cat a (cat3 b c d)

def cat5 (a b c d e : Rx) : Rx := cat a (cat4 b c d e)

def cat6 (a b c d e f : Rx) : Rx := cat a (cat5 b c d e f)

/-- `\bword\b`. -/
def word (s : String) : Rx := cat3 wordB (lit s) wordB

end Rx

open Rx in
/-- `UNIX_DENY` (`src/lib/commandPolicy.js`). -/
def UNIX_DENY : List Rx :=
  [ word "passwd",
    cat3 wordB (lit "su") wsPlus,
    word "userdel",
    word "useradd",
    word "fdisk",
    word "mkfs",
    cat6 wordB (lit "mount") dotStar wsPlus (lit "/") wsStar,
    word "reboot",
    word "shutdown",
    cat4 wordB (lit "killall") wsPlus (lit "-9") ]

open Rx in
/-- `UNIX_WARN` (`src/lib/commandPolicy.js`). -/
def UNIX_WARN : List Rx :=
  [ cat5 wordB (lit "rm") wsPlus (lit "-rf") wordB,
    cat5 wordB (lit "rm") wsPlus dotStar (lit "/*"),
    word "sudo",
    word "chown",
    cat3 (lit "chmod") wsPlus (lit "777"),
    cat3 wordB (lit "chmod")
      (cat3 wsPlus dotStar (cat3 (lit "7") dotStar (cat3 (lit "7") dotStar (lit "7")))),
    word "diskutil",
    cat4 wordB (lit "systemctl") wsPlus (alt (lit "stop") (alt (lit "disable") (lit "mask"))),
    cat6 wordB (lit "service") wsPlus dotStar wsPlus (alt (lit "stop") (lit "restart")),
    cat4 wordB (lit "crontab") wsPlus (lit "-r"),
    cat4 wordB (lit "iptables") wsPlus (lit "-f"),
    cat4 wordB (lit "ufw") wsPlus (alt (lit "disable") (lit "reset")) ]

open Rx in
/-- `WINDOWS_DENY` (`src/lib/commandPolicy.js`).  The unescaped dot of
`explorer.exe` is the regex any-character. -/
def WINDOWS_DENY : List Rx :=
  [ cat5 wordB (lit "format") wsPlus (ch (fun c => 'c' ≤ c && c ≤ 'z')) (lit ":"),
    word "diskpart",
    cat4 wordB (lit "sfc") wsPlus (lit "/scannow"),
    word "dism",
    cat3 wordB (lit "net") (cat3 wsPlus (lit "user") (cat3 wsPlus dotStar (lit "/delete"))),
    cat3 wordB (lit "net") (cat3 wsPlus (lit "user") (cat3 wsPlus dotStar (lit "/add"))),
    cat6 wordB (lit "reg") wsPlus (lit "delete") wsPlus (lit "hklm"),
    cat4 wordB (lit "shutdown") wsPlus (lit "/s"),
    cat4 wordB (lit "shutdown") wsPlus (lit "/r"),
    cat3 wordB (lit "taskkill")
      (cat3 wsPlus (lit "/f")
        (cat3 wsPlus (lit "/im") (cat3 wsPlus (lit "explorer") (cat dotAny (lit "exe"))))) ]

open Rx in
/-- `WINDOWS_WARN` (`src/lib/commandPolicy.js`). -/
def WINDOWS_WARN : List Rx :=
  [ cat3 wordB (lit "del") (cat3 wsPlus (lit "/f") (cat3 wsPlus (lit "/s") (cat wsPlus (lit "/q")))),
    cat4 wordB (lit "rmdir") wsPlus (lit "/s"),
    cat4 wordB (lit "rd") wsPlus (lit "/s"),
    cat4 wordB (lit "takeown") wsPlus (lit "/f"),
    cat5 wordB (lit "icacls") wsPlus dotStar (lit "/grant"),
    cat6 wordB (lit "attrib") wsPlus dotStar (lit "+") (ch (fun c => c = 'r' || c = 'h' || c = 's')),
    cat4 wordB (lit "netsh") wsPlus (lit "firewall"),
    cat3 wordB (lit "powershell")
      (cat3 wsPlus dotStar (cat3 (lit "remove-item") dotStar (lit "-recurse"))),
    cat5 wordB (lit "powershell") wsPlus dotStar (lit "stop-service"),
    cat5 wordB (lit "powershell") wsPlus dotStar (lit "disable-windowsoptionalfeature"),
    cat4 wordB (lit "taskkill") wsPlus (lit "/f"),
    cat6 wordB (lit "reg") wsPlus (lit "add") wsPlus (lit "hklm") ]

open Rx in
/-- `POWERSHELL_DENY` (`src/lib/commandPolicy.js`). -/
def POWERSHELL_DENY : List Rx :=
  [ lit "remove-computer",
    lit "reset-computermachinepassword",
    lit "clear-eventlog",
    lit "remove-windowsfeature",
    lit "uninstall-windowsfeature" ]

open Rx in
/-- `POWERSHELL_WARN` (`src/lib/commandPolicy.js`). -/
def POWERSHELL_WARN : List Rx :=
  [ lit "stop-computer",
    lit "restart-computer",
    cat3 (lit "remove-item") dotStar (lit "-recurse"),
    lit "stop-service",
    lit "set-executionpolicy",
    lit "new-localuser",
    lit "remove-localuser" ]

inductive CmdType
  | powershell
  | cmdShell
  | unixShell
  deriving DecidableEq, Repr

/-- Regex `^[a-z]:\\` of `identifyCommandType`, on the lower-cased
command. -/
def driveShape : List Char → Bool
  | a :: ':' :: '\\' :: _ => 'a' ≤ a && a ≤ 'z'
  | _ => false

/-- `identifyCommandType` (`src/lib/commandPolicy.js` lines 405-441),
reduced to the `type` field which is all `evaluate` consumes. -/
def identifyCommandType (env : Env) (command : String) : CmdType :=
  let c := jsToLower (jsTrim command)
  if jsStartsWith c "powershell" || jsStartsWith c "pwsh" then .powershell
  else if env.isWindows && (jsStartsWith c "cmd" || driveShape c.data) then .cmdShell
  else if jsStartsWith c "bash" || jsStartsWith c "sh" || jsStartsWith c "zsh" then
    .unixShell
  else if env.isWindows then .cmdShell else .unixShell

/-- The deny rule set `evaluate` assembles for the active platform and
command type (lines 472-488). -/
def activeDeny (env : Env) (ty : CmdType) : List Rx :=
  if env.isWindows then
    WINDOWS_DENY ++ (if ty = .powershell then POWERSHELL_DENY else [])
  else UNIX_DENY

/-- The warn rule set `evaluate` assembles (lines 472-488). -/
def activeWarn (env : Env) (ty : CmdType) : List Rx :=
  if env.isWindows then
    WINDOWS_WARN ++ (if ty = .powershell then POWERSHELL_WARN else [])
  else UNIX_WARN

inductive CmdLevel
  | allow
  | warn
  | deny
  deriving DecidableEq, Repr

/-- The `reason` strings of `evaluate`, as an enumeration:
`空命令`, `禁止的危险命令`, `sudo命令需要特殊权限`,
`sudo需要密码验证，可能导致阻塞`, `高风险命令`. -/
inductive CmdReason
  | emptyCommand
  | dangerousCommand
  | sudoNeedsPermission
  | sudoNeedsPassword
  | highRisk
  deriving DecidableEq, Repr

structure EvalResult where
  level : CmdLevel
  reason : Option CmdReason
  deriving DecidableEq, Repr

/-- Outcome of `checkSudoConfig()` — an environment probe (shell calls);
only its `noPassword` field feeds back into `evaluate`. -/
structure SudoProbe where
  noPassword : Bool
  deriving DecidableEq, Repr

/-- The `/\bsudo\b/i` test inside the warn loop (line 503). -/
def sudoRx : Rx := Rx.word "sudo"

/-- The warn-pattern loop of `evaluate` (lines 500-526): the first match
returns `warn`, except that a passwordless-sudo match falls through to the
remaining patterns. -/
def warnScan (allowSudo checkSudo : Bool) (probe : SudoProbe) (cmd : String) :
    List Rx → EvalResult
  | [] => { level := .allow, reason := none }
  | p :: rest =>
    if Rx.rtest p cmd then
      if Rx.rtest sudoRx cmd then
        if ¬allowSudo then
          { level := .warn, reason := some .sudoNeedsPermission }
        else if checkSudo ∧ ¬probe.noPassword then
          { level := .warn, reason := some .sudoNeedsPassword }
        else warnScan allowSudo checkSudo probe cmd rest
      else { level := .warn, reason := some .highRisk }
    else warnScan allowSudo checkSudo probe cmd rest

/-- `evaluate` (`src/lib/commandPolicy.js` lines 451-529), i.e. the value
the returned promise resolves to. -/
def evaluate (env : Env) (probe : SudoProbe) (command : String)
    (allowSudo checkSudo : Bool) : EvalResult :=
  let cmd := jsTrim command
  let ty := identifyCommandType env cmd
  if cmd = "" then { level := .deny, reason := some .emptyCommand }
  else if (activeDeny env ty).any (fun rx => Rx.rtest rx cmd) then
    { level := .deny, reason := some .dangerousCommand }
  else warnScan allowSudo checkSudo probe cmd (activeWarn env ty)

/-! ## Command execution front-end (`src/tools/commandExecution.js`)

`handle` runs `const policy = evaluate(command);` — but `evaluate` is an
`async function` (`src/lib/commandPolicy.js` line 451) and the call is not
awaited, so `policy` is a pending `Promise` object.  A property read on a
`Promise` (`policy.level`) yields `undefined`, which is `===`-equal to
neither `'deny'` nor `'warn'`.  The embedding records the level the
`if`-chain actually observes as `handleObservedLevel`. -/

/-- The value `policy.level` evaluates to in `handle`: `undefined`,
because `policy` is the un-awaited promise, not the verdict. -/
def handleObservedLevel : Option CmdLevel := none

inductive ExecOutcome
  | deniedThrown
  | needConfirm
  | executed
  deriving DecidableEq, Repr

/-- The policy gate of `CommandExecutionTool.handle`
(`src/tools/commandExecution.js` lines 27-47), for an allowed working
directory: `deny` would throw, `warn` without `confirm` would return the
`need_confirm` payload, anything else falls through to `execAsync`. -/
def commandExecutionGate (_command : String) (confirm : Bool) : ExecOutcome :=
  let observed := handleObservedLevel
  if observed = some .deny then .deniedThrown
  else if observed = some .warn ∧ ¬confirm then .needConfirm
  else .executed

/-- The gate as it was evidently intended (and as `evaluate`'s resolved
verdict would drive it): the same `if`-chain applied to
`(await evaluate(command)).level`. -/
def intendedExecutionGate (env : Env) (probe : SudoProbe) (command : String)
    (confirm : Bool) : ExecOutcome :=
  let level := (evaluate env probe command false false).level
  if level = .deny then .deniedThrown
  else if level = .warn ∧ ¬confirm then .needConfirm
  else .executed

/-! ## Permission adapter (`src/index.js`, `src/tools/filePermissions.js`)

`setPermissionsRecursive` walks a directory tree depth-first, checking
`currentDepth >= maxDepth` *before* touching the node.  The file system is
an `FsEntry` tree plus a chmod oracle giving the OS outcome per path; the
walk returns the list of paths whose permissions were actually set, in
order, together with the error that escaped (if any). -/

/-- A JavaScript `Error`: the optional `code` property is what the tool
layer dispatches on. -/
structure JsErr where
  code : Option String
  deriving DecidableEq, Repr

/-- The `throw new Error(\x60递归深度超过限制: ...\x60)` of
`setPermissionsRecursive` (line 1629): a plain `Error`, with no `code`
property attached. -/
def depthLimitError : JsErr := { code := none }

inductive FsEntry
  | file (name : String)
  | dir (name : String) (children : List FsEntry)

def FsEntry.name : FsEntry → String
  | .file n => n
  | .dir n _ => n

mutual

/-- Depth of the deepest node below the root (a bare file is depth 0). -/
def FsEntry.depth : FsEntry → Nat
  | .file _ => 0
  | .dir _ cs => FsEntry.depthKids cs

def FsEntry.depthKids : List FsEntry → Nat
  | [] => 0
  | c :: rest => max (c.depth + 1) (FsEntry.depthKids rest)

end

mutual

/-- `CrossPlatformPermissionManager.setPermissionsRecursive`
(`src/index.js` lines 1624-1676).  `chmodErr p` is the OS outcome of
`setPermissions` at `p` (`none` = success).  Returns the chmodded paths
and the error that propagated out of the call, if any:
* the depth guard throws before the `try`, so it escapes even under
  `skipErrors`;
* a chmod failure or a child error is swallowed when `skipErrors` is set,
  rethrown otherwise. -/
def setPerm
    : (String → Option JsErr) → FsEntry → String → Nat → Nat → Bool →
      List String × Option JsErr
  | chmodErr, node, p, maxDepth, currentDepth, skipErrors =>
    if maxDepth ≤ currentDepth then ([], some depthLimitError)
    else
      match chmodErr p with
      | some e => ([], if skipErrors then none else some e)
      | none =>
        match node with
        | .file _ => ([p], none)
        | .dir _ cs =>
          let r := setPermKids chmodErr cs p maxDepth currentDepth skipErrors
          (p :: r.1, if skipErrors then none else r.2)

/-- The `for (const item of items)` loop over the directory entries, with
the per-child `try`/`catch` (lines 1642-1661). -/
def setPermKids
    : (String → Option JsErr) → List FsEntry → String → Nat → Nat → Bool →
      List String × Option JsErr
  | _, [], _, _, _, _ => ([], none)
  | chmodErr, c :: rest, pDir, maxDepth, currentDepth, skipErrors =>
    let r := setPerm chmodErr c (pDir ++ "/" ++ c.name) maxDepth
      (currentDepth + 1) skipErrors
    match r.2 with
    | some e =>
      if skipErrors then
        let r2 := setPermKids chmodErr rest pDir maxDepth currentDepth skipErrors
        (r.1 ++ r2.1, r2.2)
      else (r.1, some e)
    | none =>
      let r2 := setPermKids chmodErr rest pDir maxDepth currentDepth skipErrors
      (r.1 ++ r2.1, r2.2)

end

/-- The error re-dispatch of `FilePermissionsTool.handle`
(`src/tools/filePermissions.js` lines 84-90), mapping a caught error to
the `ToolError` code finally thrown to the caller. -/
def filePermErrorCode (e : JsErr) : String :=
  if e.code = some "ENOENT" then "E_NOT_FOUND"
  else if e.code = some "E_PATH_DENIED" then "E_PATH_DENIED"
  else if e.code = some "E_LIMIT_REACHED" then "E_LIMIT_REACHED"
  else if e.code = some "EACCES" then "E_INVALID_ARGS"
  else "E_INVALID_ARGS"

/-- A recursive `file_permissions` call seen from the tool boundary: the
chmodded paths on success, or the `ToolError` code on failure. -/
def filePermissionsRecursiveOutcome (chmodErr : String → Option JsErr)
    (node : FsEntry) (target : String) (maxDepth : Nat) (skipErrors : Bool) :
    Except String (List String) :=
  match setPerm chmodErr node target maxDepth 0 skipErrors with
  | (applied, none) => .ok applied
  | (_, some e) => .error (filePermErrorCode e)

/-! ## Cross-platform change watcher (`src/tools/fileWatch.js`) -/

/-- The constructor's option coercion (lines 19-24): `||` treats `0` as
absent, so `maxDepth: 0` and `debounceMs: 0` fall back to the defaults. -/
structure WatchOptsIn where
  recursive : Option Bool := none
  maxDepth : Option Nat := none
  debounceMs : Option Nat := none
  deriving DecidableEq, Repr

structure WatchOpts where
  recursive : Bool
  maxDepth : Nat
  debounceMs : Nat
  deriving DecidableEq, Repr

/-- `options.x || default` on an optional number: `undefined` and `0` are
both falsy. -/
def orDefault (v : Option Nat) (d : Nat) : Nat :=
  match v with
  | none => d
  | some 0 => d
  | some n => n

/-- `CrossPlatformWatcher` constructor option processing
(`src/tools/fileWatch.js` lines 19-24). -/
def coerceWatchOpts (o : WatchOptsIn) : WatchOpts where
  recursive := o.recursive ≠ some false
  maxDepth := orDefault o.maxDepth 10
  debounceMs := orDefault o.debounceMs 100

/-- `shouldIgnorePath` (lines 220-239) with the default pattern list and
no user patterns: each default regex is tested against the basename and
the full path (`/^\./`, `/\.tmp$/`, `/node_modules/`, `/\.git/`). -/
def shouldIgnorePath (p : String) : Bool :=
  let bn := pbasename p
  jsStartsWith bn "." || jsStartsWith p "." ||
    jsEndsWith bn ".tmp" || jsEndsWith p ".tmp" ||
    jsIncludes bn "node_modules" || jsIncludes p "node_modules" ||
    jsIncludes bn ".git" || jsIncludes p ".git"

mutual

/-- `setupWatchersRecursively` (lines 110-154) over an `FsEntry` tree: the
list of directory paths a watch handle is armed on, in registration
order.  The `depth >= maxDepth` guard runs before anything is armed. -/
def setupWatchers : WatchOpts → FsEntry → String → Nat → List String
  | opts, node, p, depth =>
    if opts.maxDepth ≤ depth then []
    else
      match node with
      | .file _ => []
      | .dir _ cs =>
        if shouldIgnorePath p then []
        else p :: (if opts.recursive then setupWatchersKids opts cs p depth else [])

/-- The `readdir` loop (lines 138-149): only directory entries are
recursed into. -/
def setupWatchersKids : WatchOpts → List FsEntry → String → Nat → List String
  | _, [], _, _ => []
  | opts, c :: rest, pDir, depth =>
    (match c with
     | .file _ => []
     | .dir _ _ => setupWatchers opts c (pDir ++ "/" ++ c.name) (depth + 1)) ++
      setupWatchersKids opts rest pDir depth

end

/-- The handles `start()` arms (lines 44-49): one native recursive handle
on the root when the platform supports it and `recursive` is set,
otherwise the manual walk from depth 0. -/
def startHandles (env : Env) (opts : WatchOpts) (node : FsEntry)
    (root : String) : List String :=
  if supportsRecursiveWatch env && opts.recursive then [root]
  else setupWatchers opts node root 0

/-- `handlePotentialNewDirectory` (lines 156-165): a `rename` event for a
path that now exists as a directory not yet watched re-arms the manual
walk one level deeper. -/
def rearmNewDirectory (opts : WatchOpts) (watched : List String)
    (node : FsEntry) (fullPath : String) (currentDepth : Nat) : List String :=
  match node with
  | .file _ => []
  | .dir _ _ =>
    if fullPath ∈ watched then []
    else setupWatchers opts node fullPath (currentDepth + 1)

/-! ## Watcher session state machine (`src/tools/fileWatch.js`)

The mutable state of a `CrossPlatformWatcher`: the `isActive` flag, the
keys of the `watchers` map (directory path → OS handle), the keys of the
`debounceTimers` map (`` `${eventType}:${filePath}` ``), and the event
counter.  OS notification callbacks and debounce-timer expiries run on the
event loop interleaved with the caller; they are modelled as a small-step
relation below. -/

structure WSession where
  isActive : Bool
  watchers : List String
  timers : List String
  eventsCount : Nat
  deriving DecidableEq, Repr

/-- The freshly constructed session (lines 26-33). -/
def initialSession : WSession :=
  { isActive := false, watchers := [], timers := [], eventsCount := 0 }

/-- `stop()` (lines 63-86): a no-op when inactive; otherwise closes every
handle, clears the `watchers` map, cancels and clears every debounce
timer, and drops the active flag. -/
def stopSession (s : WSession) : WSession :=
  if s.isActive then { s with isActive := false, watchers := [], timers := [] }
  else s

inductive StartOutcome
  | alreadyRunning
  | startFailed
  | started
  deriving DecidableEq, Repr

/-- `start()` (lines 36-61): throws if already active (before touching any
state); otherwise arms the handles computed by `startHandles`, and on a
registration failure resets `isActive` and rethrows with no handle armed
(`fs.watch` throws before `watchers.set` runs; the manual walk swallows
its own errors).  `setupFails` abstracts whether handle registration
throws. -/
def startSession (env : Env) (opts : WatchOpts) (node : FsEntry)
    (root : String) (setupFails : Bool) (s : WSession) :
    StartOutcome × WSession :=
  if s.isActive then (.alreadyRunning, s)
  else if setupFails then (.startFailed, { s with isActive := false })
  else (.started, { s with isActive := true,
                           watchers := startHandles env opts node root })

/-- `handleFileEvent` (lines 167-182): refresh the debounce timer for the
`(eventType, path)` key; nothing is emitted yet. -/
def handleFileEventFn (s : WSession) (key : String) : WSession :=
  { s with timers := key :: s.timers.erase key }

/-- The debounce-timer callback plus `processFileEvent` (lines 176-218):
the timer key is removed, one `change` event is emitted, and for a
`rename` of a vanished watched directory its handle is closed and
dropped. -/
def fireTimerFn (s : WSession) (key : String) (dropHandle : Option String) :
    WSession :=
  { s with
    timers := s.timers.erase key
    eventsCount := s.eventsCount + 1
    watchers := match dropHandle with
                | some p => s.watchers.erase p
                | none => s.watchers }

/-- One asynchronous step of a session; the `Bool` records whether the
step delivered a `change` event to the caller.  OS callbacks only fire
from armed handles, timer callbacks only from pending timers. -/
inductive WStep : WSession → Bool → WSession → Prop
  | osEvent (s : WSession) (dir key : String) (h : dir ∈ s.watchers) :
      WStep s false (handleFileEventFn s key)
  | timerFire (s : WSession) (key : String) (dropHandle : Option String)
      (h : key ∈ s.timers) :
      WStep s true (fireTimerFn s key dropHandle)
  | stopCall (s : WSession) : WStep s false (stopSession s)

/-- A run of asynchronous steps (no restart), counting delivered `change`
events. -/
inductive WRun : WSession → Nat → WSession → Prop
  | nil (s : WSession) : WRun s 0 s
  | cons {s s' s'' : WSession} {e : Bool} {n : Nat}
      (h₁ : WStep s e s') (h₂ : WRun s' n s'') :
      WRun s (cond e 1 0 + n) s''

/-- Session states reachable through the `CrossPlatformWatcher` API. -/
inductive WReach : WSession → Prop
  | init : WReach initialSession
  | start (env : Env) (opts : WatchOpts) (node : FsEntry) (root : String)
      (setupFails : Bool) {s : WSession} (h : WReach s) :
      WReach (startSession env opts node root setupFails s).2
  | step {s s' : WSession} {e : Bool} (h : WReach s) (hs : WStep s e s') :
      WReach s'

/-! ## Concrete fixtures used by witnesses and counterexamples -/

def linuxEnv : Env := { platform := .linux, homedir := "/home/alice", cwd := "/" }

def rootOps : PathOps := posixOps "/"

/-- A file system in which nothing exists. -/
def emptyFs : FileSys :=
  { fsExists := fun _ => false, fsIsSymlink := fun _ => false, fsRealpath := id }

/-- A file system with a single symlink `/home/alice/link` whose real
target is `/home/alice/real.txt` (inside the home directory). -/
def insideLinkFs : FileSys :=
  { fsExists := fun p => p = "/home/alice/link"
    fsIsSymlink := fun p => p = "/home/alice/link"
    fsRealpath := fun _ => "/home/alice/real.txt" }

def sudoProbe0 : SudoProbe := { noPassword := false }

/-! ## Helper lemmas -/

/-- If `a ++ [c]` is a prefix of `b ++ [c]`, then either the two lists
agree or `a ++ [c]` already sits inside `b`. -/
lemma prefix_snoc_split (c : Char) :
    ∀ a b : List Char, (a ++ [c]) <+: (b ++ [c]) → a = b ∨ (a ++ [c]) <+: b := by
  intro a
  induction a with
  | nil =>
    intro b h
    cases b with
    | nil => exact Or.inl rfl
    | cons y bs =>
      right
      have h' : [c] <+: y :: (bs ++ [c]) := by simpa using h
      rcases List.cons_prefix_cons.mp h' with ⟨hc, -⟩
      have : [c] <+: y :: bs := List.cons_prefix_cons.mpr ⟨hc, List.nil_prefix⟩
      simpa using this
  | cons x as ih =>
    intro b h
    cases b with
    | nil =>
      exfalso
      have hlen := h.length_le
      simp [List.length_append] at hlen
    | cons y bs =>
      have h' : x :: (as ++ [c]) <+: y :: (bs ++ [c]) := by simpa using h
      rcases List.cons_prefix_cons.mp h' with ⟨hxy, hrest⟩
      rcases ih bs hrest with heq | hpre
      · exact Or.inl (by rw [hxy, heq])
      · right
        have : x :: (as ++ [c]) <+: y :: bs := List.cons_prefix_cons.mpr ⟨hxy, hpre⟩
        simpa using this

/-- The separator-padded prefix test `assertInHome` performs is exactly
"equal to the root, or a strict descendant of it". -/
lemma jsStartsWith_sep_iff (ops : PathOps) (x y : String) :
    jsStartsWith (x ++ ops.sepStr) (y ++ ops.sepStr) = true ↔
      (x = y ∨ (y ++ ops.sepStr).data <+: x.data) := by
  unfold jsStartsWith
  rw [ List.isPrefixOf_iff_prefix]
  have hx : (x ++ ops.sepStr).data = x.data ++ [ops.sepChar] := by
    rw [String.data_append]; rfl
  have hy : (y ++ ops.sepStr).data = y.data ++ [ops.sepChar] := by
    rw [String.data_append]; rfl
  rw [hx, hy]
  constructor
  · intro h
    rcases prefix_snoc_split ops.sepChar y.data x.data h with heq | hpre
    · exact Or.inl (String.ext heq).symm
    · exact Or.inr hpre
  · rintro (rfl | hpre)
    · exact List.prefix_rfl
    · exact hpre.trans (List.prefix_append _ _)

/-- Every successful `assertInHome` on a non-Windows platform returns a
path that is the (resolved) home directory or a descendant of it. -/
lemma assertInHome_ok_under_home (ops : PathOps) (env : Env) (fsys : FileSys)
    (absPath : String) (aS sM : Bool) (r : String)
    (hw : env.isWindows = false)
    (h : assertInHome ops env fsys absPath aS sM = .ok r) :
    isUnderHome ops env r := by
  unfold assertInHome at h
  rw [hw] at h
  simp only [Bool.false_eq_true, if_false] at h
  repeat' split at h
  all_goals first
    | exact Except.noConfusion h
    | (rw [Except.ok.injEq] at h
       subst h
       exact (jsStartsWith_sep_iff ops _ _).mp (by assumption))

/-! ## Claim C1 -/

/-- **C1, counterexample.**  The claim takes the confinement root to be
the supplied working root; but with working root `/home/alice/proj` the
absolute input `/home/alice/secret.txt` resolves successfully to a path
outside that root (the code only confines to the home directory). -/
theorem C1_counterexample :
    resolveAndAssert rootOps linuxEnv emptyFs "/home/alice/secret.txt"
        (some "/home/alice/proj") = .ok "/home/alice/secret.txt" ∧
      ¬ isUnderRoot rootOps "/home/alice/proj" "/home/alice/secret.txt" := by
  constructor
  · decide
  · decide

/-- **C1, amended.**  The confinement root enforced by the resolver
(`resolveUserPath` + `assertInHome`, as composed by
`SecurityValidator.resolveAndAssert`) is always the caller's home
directory, regardless of any supplied working directory: on a non-Windows
platform, every successful resolution returns the resolved home directory
or a descendant of it. -/
theorem C1_home_confinement (ops : PathOps) (env : Env) (fsys : FileSys)
    (input : String) (workingDir : Option String) (r : String)
    (hw : env.isWindows = false)
    (h : resolveAndAssert ops env fsys input workingDir = .ok r) :
    isUnderHome ops env r := by
  unfold resolveAndAssert at h
  split at h
  · exact absurd h (by simp)
  · split at h
    · rename_i habs _ hassert
      rw [Except.ok.injEq] at h
      subst h
      exact assertInHome_ok_under_home ops env fsys _ false true _ hw hassert
    · exact absurd h (by simp)

/-- **C1, witness**: the spec's own concrete scenario
`resolve("notes/todo.txt")` with home `/home/alice` succeeds and the
amended theorem places the result under the home directory. -/
theorem C1_home_confinement_witness :
    isUnderHome rootOps linuxEnv "/home/alice/notes/todo.txt" :=
  C1_home_confinement rootOps linuxEnv emptyFs "notes/todo.txt" none
    "/home/alice/notes/todo.txt" (by decide) (by decide)

/-! ## Claim C2 -/

lemma isWindows_false_of_isUnix (env : Env) (h : env.isUnix = true) :
    env.isWindows = false := by
  cases hp : env.platform <;>
    simp only [Env.isUnix, Env.isWindows, hp] at h ⊢ <;> simp_all

/-- **C2, counterexample.**  `/home/alice/link` exists, is a symlink, and
its real target `/home/alice/real.txt` lies inside the confinement root;
the claim says the default resolution resolves the link and succeeds with
the real path, but `assertInHome` (and hence
`SecurityValidator.resolveAndAssert`) rejects the link outright. -/
theorem C2_counterexample :
    insideLinkFs.fsExists "/home/alice/link" = true ∧
      insideLinkFs.fsIsSymlink "/home/alice/link" = true ∧
      isUnderHome rootOps linuxEnv (insideLinkFs.fsRealpath "/home/alice/link") ∧
      assertInHome rootOps linuxEnv insideLinkFs "/home/alice/link" false true =
        .error .symlinkDenied ∧
      resolveAndAssert rootOps linuxEnv insideLinkFs "/home/alice/link" none =
        .error .pathDenied := by
  refine ⟨by decide, by decide, by decide, by decide, by decide⟩

/-- **C2, amended.**  For an existing symlink on a Unix platform: with the
default options (`allowSymlinks = false`, strict mode) the guard rejects
the link outright with `E_SYMLINK_DENIED`; only with `allowSymlinks =
true` does it resolve the link's real target and run the confinement
check against the real path — a real target inside the home root resolves
successfully to the real path, one outside is rejected. -/
theorem C2_symlink_policy (ops : PathOps) (env : Env) (fsys : FileSys)
    (absPath : String)
    (hu : env.isUnix = true)
    (hne : absPath ≠ "")
    (hex : fsys.fsExists (ops.resolve1 absPath) = true)
    (hsl : fsys.fsIsSymlink (ops.resolve1 absPath) = true) :
    assertInHome ops env fsys absPath false true = .error .symlinkDenied ∧
      (isUnderHome ops env (fsys.fsRealpath (ops.resolve1 absPath)) →
        assertInHome ops env fsys absPath true true =
          .ok (fsys.fsRealpath (ops.resolve1 absPath))) ∧
      (¬ isUnderHome ops env (fsys.fsRealpath (ops.resolve1 absPath)) →
        assertInHome ops env fsys absPath true true = .error .pathDenied) := by
  have hw := isWindows_false_of_isUnix env hu
  refine ⟨?_, ?_, ?_⟩
  · unfold assertInHome
    simp [hne, hu, hex, hsl, hw]
  · intro hin
    have hg : jsStartsWith
        (ops.resolve1 (fsys.fsRealpath (ops.resolve1 absPath)) ++ ops.sepStr)
        (ops.resolve1 (getHomeDirectory ops env) ++ ops.sepStr) = true :=
      (jsStartsWith_sep_iff ops _ _).mpr hin
    unfold assertInHome
    simp [hne, hu, hex, hsl, hw, hg]
  · intro hout
    have hg : jsStartsWith
        (ops.resolve1 (fsys.fsRealpath (ops.resolve1 absPath)) ++ ops.sepStr)
        (ops.resolve1 (getHomeDirectory ops env) ++ ops.sepStr) = false := by
      rw [Bool.eq_false_iff]
      exact fun hc => hout ((jsStartsWith_sep_iff ops _ _).mp hc)
    unfold assertInHome
    simp [hne, hu, hex, hsl, hw, hg]

/-- **C2, witness**: with `allowSymlinks = true` the inside-root link of
the fixture resolves to its real target. -/
theorem C2_symlink_policy_witness :
    assertInHome rootOps linuxEnv insideLinkFs "/home/alice/link" true true =
      .ok (insideLinkFs.fsRealpath (rootOps.resolve1 "/home/alice/link")) :=
  (C2_symlink_policy rootOps linuxEnv insideLinkFs "/home/alice/link"
      (by decide) (by decide) (by decide) (by decide)).2.1 (by decide)

/-! ## Claim C3 -/

lemma append_ne_empty_left (x y : String) (hx : x ≠ "") : x ++ y ≠ "" := by
  intro hc
  apply hx
  have hd : x.data ++ y.data = [] := by
    have := congrArg String.data hc
    rwa [String.data_append] at this
  exact String.ext (List.append_eq_nil.mp hd).1

lemma append_ne_empty_right (x y : String) (hy : y ≠ "") : x ++ y ≠ "" := by
  intro hc
  apply hy
  have hd : x.data ++ y.data = [] := by
    have := congrArg String.data hc
    rwa [String.data_append] at this
  exact String.ext (List.append_eq_nil.mp hd).2

lemma pnormalize_ne_empty (p : String) : pnormalize p ≠ "" := by
  intro hc
  simp only [pnormalize] at hc
  repeat' split at hc
  all_goals first
    | exact absurd hc (by simp)
    | exact absurd hc (by assumption)
    | exact absurd hc (append_ne_empty_left "/" _ (by decide))
    | exact absurd hc (append_ne_empty_right _ "/" (by decide))

lemma pjoin_ne_empty (a b : String) : pjoin a b ≠ "" := by
  intro hc
  simp only [pjoin] at hc
  split at hc
  · exact absurd hc (by simp)
  · exact absurd hc (pnormalize_ne_empty _)

/-- **C3, counterexample.**  The claim says a prefix-matching input with no
working directory is passed through *unchanged*; but the candidate still
goes through `path.normalize`/`path.resolve`, so an input containing a
`..` segment comes back rewritten. -/
theorem C3_counterexample :
    jsStartsWith "/Users/xueyuheng/research/mcp/a/../b" projectRoot = true ∧
      resolveUserPath rootOps linuxEnv "/Users/xueyuheng/research/mcp/a/../b"
          none false false = .ok "/Users/xueyuheng/research/mcp/b" ∧
      "/Users/xueyuheng/research/mcp/b" ≠ "/Users/xueyuheng/research/mcp/a/../b" := by
  refine ⟨by decide, by decide, by decide⟩

/-- **C3, amended.**  For every input that begins with one of the two
hard-coded prefixes, `resolveUserPath` does not treat the input as an
ordinary absolute path: with a working directory it returns the working
directory joined with `path.relative(prefix, input)` (then normalized and
resolved), and without one it uses the input itself as the candidate, so
the result is just the input normalized and resolved (verbatim only when
the input is already in normal form). -/
theorem C3_prefix_rewrite (env : Env) (cwd input w : String)
    (hw : env.isWindows = false)
    (hpre : jsStartsWith input projectRoot = true ∨
      jsStartsWith input guerrillaPath = true) :
    resolveUserPath (posixOps cwd) env input (some w) false false =
      .ok (presolve cwd (pnormalize (pjoin w (prelative cwd
        (if jsStartsWith input projectRoot then projectRoot else guerrillaPath)
        input)))) ∧
    resolveUserPath (posixOps cwd) env input none false false =
      .ok (presolve cwd (pnormalize input)) := by
  have hne : input ≠ "" := by
    rintro rfl
    rcases hpre with h | h
    · rw [show jsStartsWith "" projectRoot = false from by decide] at h
      simp at h
    · rw [show jsStartsWith "" guerrillaPath = false from by decide] at h
      simp at h
  constructor
  · unfold resolveUserPath
    rw [if_neg hne, hw]
    simp only [Bool.false_eq_true, if_false]
    congr 1
    unfold ruNormalized ruBase normalizePathU
    simp only [posixOps]
    by_cases hp : jsStartsWith input projectRoot = true
    · simp only [hp, if_true]
      rw [if_neg (pjoin_ne_empty _ _)]
    · have hg : jsStartsWith input guerrillaPath = true := by
        rcases hpre with h | h
        · exact absurd h hp
        · exact h
      simp only [hp, hg, Bool.false_eq_true, if_false, if_true]
      rw [if_neg (pjoin_ne_empty _ _)]
  · unfold resolveUserPath
    rw [if_neg hne, hw]
    simp only [Bool.false_eq_true, if_false]
    congr 1
    unfold ruNormalized ruBase normalizePathU
    simp only [posixOps]
    by_cases hp : jsStartsWith input projectRoot = true
    · simp only [hp, if_true]
      rw [if_neg hne]
    · have hg : jsStartsWith input guerrillaPath = true := by
        rcases hpre with h | h
        · exact absurd h hp
        · exact h
      simp only [hp, hg, Bool.false_eq_true, if_false, if_true]
      rw [if_neg hne]

/-- **C3, witness**: `/Users/xueyuheng/research/mcp/src/f.js` is redirected
under the working directory `/w` when one is supplied, and resolves to
itself when none is. -/
theorem C3_prefix_rewrite_witness :
    resolveUserPath (posixOps "/") linuxEnv
        "/Users/xueyuheng/research/mcp/src/f.js" (some "/w") false false =
      .ok "/w/src/f.js" ∧
    resolveUserPath (posixOps "/") linuxEnv
        "/Users/xueyuheng/research/mcp/src/f.js" none false false =
      .ok "/Users/xueyuheng/research/mcp/src/f.js" := by
  have h := C3_prefix_rewrite linuxEnv "/" "/Users/xueyuheng/research/mcp/src/f.js"
    "/w" (by decide) (Or.inl (by decide))
  constructor
  · rw [h.1]; decide
  · rw [h.2]; decide

/-! ## Claim C4 -/

/-- A directory chain of depth 2: `d/a/f.txt`. -/
def permTree : FsEntry := .dir "d" [.dir "a" [.file "f.txt"]]

/-- A chmod oracle that always succeeds. -/
def okChmod : String → Option JsErr := fun _ => none

/-- **C4 (code bug).**  On a tree of depth 2 with `maxDepth = 1` and
`skipErrors = false`, the recursive walk does raise (after mutating only
the root, which is below `maxDepth`) — but the depth error is a plain
`Error` with no `code` property, so `FilePermissionsTool.handle` re-wraps
it as `E_INVALID_ARGS` instead of the `E_LIMIT_REACHED` the claim (and
the repository's own error table) promises. -/
theorem C4_depth_error_miscoded :
    1 < FsEntry.depth permTree ∧
      setPerm okChmod permTree "/home/alice/d" 1 0 false =
        (["/home/alice/d"], some depthLimitError) ∧
      depthLimitError.code = none ∧
      filePermErrorCode depthLimitError = "E_INVALID_ARGS" ∧
      filePermissionsRecursiveOutcome okChmod permTree "/home/alice/d" 1 false =
        .error "E_INVALID_ARGS" ∧
      filePermErrorCode depthLimitError ≠ "E_LIMIT_REACHED" := by
  refine ⟨by decide, by decide, by decide, by decide, by decide, by decide⟩

/-! ## Claim C5 -/

/-- **C5 (code bug).**  `rm -rf /tmp/build` is classified `warn` by
`evaluate`, and the intended gate would return `need_confirm` without
`confirm` and execute with it — but the actual `handle` never awaits the
promise, observes `undefined` as the level, and executes the command
immediately even without confirmation. -/
theorem C5_missing_await :
    (evaluate linuxEnv sudoProbe0 "rm -rf /tmp/build" false false).level =
        .warn ∧
      commandExecutionGate "rm -rf /tmp/build" false = .executed ∧
      intendedExecutionGate linuxEnv sudoProbe0 "rm -rf /tmp/build" false =
        .needConfirm ∧
      intendedExecutionGate linuxEnv sudoProbe0 "rm -rf /tmp/build" true =
        .executed := by
  refine ⟨by decide, by decide, by decide, by decide⟩

/-! ## Claim C6 -/

/-- A watch root with one subdirectory and one file: `d/sub`, `d/x.txt`. -/
def watchTree : FsEntry := .dir "d" [.dir "sub" [], .file "x.txt"]

/-- **C6, counterexample.**  On Linux (no native recursion) a session
started with `maxDepth = 0` does *not* register exactly one root handle:
the constructor's `options.maxDepth || 10` coerces `0` to `10`, so the
walk arms the root *and* its subdirectory, and a subdirectory created
during the session would be re-armed as well. -/
theorem C6_counterexample :
    supportsRecursiveWatch linuxEnv = false ∧
      (coerceWatchOpts { maxDepth := some 0 }).maxDepth = 10 ∧
      startHandles linuxEnv (coerceWatchOpts { maxDepth := some 0 }) watchTree
          "/home/alice/d" = ["/home/alice/d", "/home/alice/d/sub"] ∧
      startHandles linuxEnv (coerceWatchOpts { maxDepth := some 0 }) watchTree
          "/home/alice/d" ≠ ["/home/alice/d"] ∧
      rearmNewDirectory (coerceWatchOpts { maxDepth := some 0 })
          ["/home/alice/d", "/home/alice/d/sub"] (.dir "new" [])
          "/home/alice/d/new" 0 = ["/home/alice/d/new"] := by
  refine ⟨by decide, by decide, by decide, by decide, by decide⟩

/-- **C6, amended.**  `maxDepth = 0` is coerced to the default `10` by the
constructor (`0` is falsy under `||`), so on a platform without native
recursive watching the session arms exactly the handles of the default
depth-10 manual walk — the root plus nested subdirectories — and new
subdirectories can be re-armed during the session. -/
theorem C6_maxDepth_zero_coerced (o : WatchOptsIn) (env : Env)
    (node : FsEntry) (root : String)
    (hn : supportsRecursiveWatch env = false) :
    coerceWatchOpts { o with maxDepth := some 0 } =
        coerceWatchOpts { o with maxDepth := none } ∧
      startHandles env (coerceWatchOpts { o with maxDepth := some 0 }) node root =
        setupWatchers (coerceWatchOpts { o with maxDepth := none }) node root 0 := by
  refine ⟨rfl, ?_⟩
  unfold startHandles
  rw [hn]
  rfl

/-- **C6, witness**: the coercion and walk equality at the Linux fixture. -/
theorem C6_maxDepth_zero_coerced_witness :
    coerceWatchOpts { maxDepth := some 0 } = coerceWatchOpts {} ∧
      startHandles linuxEnv (coerceWatchOpts { maxDepth := some 0 }) watchTree
          "/home/alice/d" =
        setupWatchers (coerceWatchOpts {}) watchTree "/home/alice/d" 0 :=
  C6_maxDepth_zero_coerced {} linuxEnv watchTree "/home/alice/d" (by decide)

/-! ## Claim C7 -/

lemma warnScan_allow (allowSudo checkSudo : Bool) (probe : SudoProbe)
    (cmd : String) :
    ∀ l : List Rx, (∀ rx ∈ l, Rx.rtest rx cmd = false) →
      warnScan allowSudo checkSudo probe cmd l =
        { level := .allow, reason := none } := by
  intro l
  induction l with
  | nil => intro _; rfl
  | cons p rest ih =>
    intro h
    unfold warnScan
    rw [h p (List.mem_cons_self _ _)]
    simp only [Bool.false_eq_true, if_false]
    exact ih (fun rx hrx => h rx (List.mem_cons_of_mem _ hrx))

/-- **C7, counterexample.**  The empty command matches no pattern of the
active (posix) deny or warn sets, yet `evaluate` returns `deny`
(`空命令`), not `allow`. -/
theorem C7_counterexample :
    (activeDeny linuxEnv (identifyCommandType linuxEnv "")).any
        (fun rx => Rx.rtest rx "") = false ∧
      (activeWarn linuxEnv (identifyCommandType linuxEnv "")).any
        (fun rx => Rx.rtest rx "") = false ∧
      evaluate linuxEnv sudoProbe0 "" false false =
        { level := .deny, reason := some .emptyCommand } := by
  refine ⟨by decide, by decide, by decide⟩

/-- **C7, amended.**  Every command whose *trimmed* form is nonempty and
which matches no pattern of the active platform's deny set and none of its
warn set is classified `allow`; empty or whitespace-only commands are
instead denied outright (`空命令`) even though they match no pattern. -/
theorem C7_allow_when_unmatched (env : Env) (probe : SudoProbe)
    (command : String) (allowSudo checkSudo : Bool)
    (hne : jsTrim command ≠ "")
    (hdeny : ∀ rx ∈ activeDeny env (identifyCommandType env (jsTrim command)),
      Rx.rtest rx (jsTrim command) = false)
    (hwarn : ∀ rx ∈ activeWarn env (identifyCommandType env (jsTrim command)),
      Rx.rtest rx (jsTrim command) = false) :
    evaluate env probe command allowSudo checkSudo =
      { level := .allow, reason := none } := by
  simp only [evaluate]
  rw [if_neg hne]
  have hd : (activeDeny env (identifyCommandType env (jsTrim command))).any
      (fun rx => Rx.rtest rx (jsTrim command)) = false :=
    List.any_eq_false.mpr (fun rx hrx => by simp [hdeny rx hrx])
  rw [hd]
  simp only [Bool.false_eq_true, if_false]
  exact warnScan_allow allowSudo checkSudo probe (jsTrim command) _ hwarn

/-- **C7, witness**: `ls -la` matches nothing and is allowed. -/
theorem C7_allow_when_unmatched_witness :
    evaluate linuxEnv sudoProbe0 "ls -la" false false =
      { level := .allow, reason := none } :=
  C7_allow_when_unmatched linuxEnv sudoProbe0 "ls -la" false false
    (by decide) (by decide) (by decide)

/-! ## Claim C8 -/

/-- A posix path of length 4201, above the non-Windows `maxLength` of
4096. -/
def longPosixInput : String := "/" ++ String.mk (List.replicate (4199 + 1) 'a')

/-- A path of length 32801, above the Windows `maxLength` of 32767. -/
def longWinInput : String := "/" ++ String.mk (List.replicate (32799 + 1) 'a')

def winEnv : Env := { platform := .windows, homedir := "/home/w", cwd := "/" }

lemma splitChar_replicate_a (n : Nat) :
    splitChar '/' (List.replicate n 'a') = [List.replicate n 'a'] := by
  induction n with
  | zero => rfl
  | succ n ih =>
    rw [List.replicate_succ]
    simp only [splitChar, ih]
    rfl

/-- `"/" ++ "aa…a"` ends in `'a'`, not in the separator. -/
lemma endsWith_slash_rep (n : Nat) :
    jsEndsWith ("/" ++ String.mk (List.replicate (n + 1) 'a')) "/" = false := by
  unfold jsEndsWith
  have hdata : ("/" ++ String.mk (List.replicate (n + 1) 'a')).data =
      '/' :: List.replicate (n + 1) 'a' := by
    rw [String.data_append]; rfl
  have hrev : ('/' :: List.replicate (n + 1) 'a').reverse =
      'a' :: (List.replicate n 'a' ++ ['/']) := by
    rw [List.reverse_cons, List.reverse_replicate, List.replicate_succ,
      List.cons_append]
  rw [hdata]
  unfold List.isSuffixOf
  rw [hrev]
  rfl

lemma psplit_slash_rep (n : Nat) :
    psplit ("/" ++ String.mk (List.replicate (n + 1) 'a')) =
      ["", String.mk (List.replicate (n + 1) 'a')] := by
  unfold psplit
  have hdata : ("/" ++ String.mk (List.replicate (n + 1) 'a')).data =
      '/' :: List.replicate (n + 1) 'a' := by
    rw [String.data_append]; rfl
  rw [hdata]
  simp only [splitChar, splitChar_replicate_a]
  rfl

lemma slash_rep_ne_empty (n : Nat) :
    ("/" ++ String.mk (List.replicate (n + 1) 'a')) ≠ "" :=
  append_ne_empty_left _ _ (by decide)

lemma pnormalize_slash_rep (n : Nat) :
    pnormalize ("/" ++ String.mk (List.replicate (n + 1) 'a')) =
      "/" ++ String.mk (List.replicate (n + 1) 'a') := by
  unfold pnormalize
  rw [if_neg (slash_rep_ne_empty n)]
  dsimp only
  rw [psplit_slash_rep, endsWith_slash_rep,
    show jsStartsWith ("/" ++ String.mk (List.replicate (n + 1) 'a')) "/" = true
      from rfl]
  rfl

lemma presolve_slash_rep (cwd : String) (n : Nat) :
    presolve cwd ("/" ++ String.mk (List.replicate (n + 1) 'a')) =
      "/" ++ String.mk (List.replicate (n + 1) 'a') := by
  unfold presolve
  rw [show jsStartsWith ("/" ++ String.mk (List.replicate (n + 1) 'a')) "/" = true
      from rfl]
  simp only [eq_self_iff_true, if_true]
  rw [psplit_slash_rep]
  rfl

lemma length_slash_rep (n : Nat) :
    ("/" ++ String.mk (List.replicate n 'a')).length = n + 1 := by
  have hdata : ("/" ++ String.mk (List.replicate n 'a')).data =
      '/' :: List.replicate n 'a' := by
    rw [String.data_append]; rfl
  rw [show ("/" ++ String.mk (List.replicate n 'a')).length =
      ("/" ++ String.mk (List.replicate n 'a')).data.length from rfl, hdata]
  simp

lemma ruNormalized_slash_rep (n : Nat) :
    ruNormalized rootOps linuxEnv
        ("/" ++ String.mk (List.replicate (n + 1) 'a')) none =
      "/" ++ String.mk (List.replicate (n + 1) 'a') := by
  unfold ruNormalized ruBase normalizePathU
  rw [show jsStartsWith ("/" ++ String.mk (List.replicate (n + 1) 'a'))
        projectRoot = false from rfl,
    show jsStartsWith ("/" ++ String.mk (List.replicate (n + 1) 'a'))
        guerrillaPath = false from rfl]
  simp only [Bool.false_eq_true, if_false]
  rw [show rootOps.isAbsolute ("/" ++ String.mk (List.replicate (n + 1) 'a')) =
        true from rfl]
  simp only [if_true]
  rw [if_neg (slash_rep_ne_empty n),
    show rootOps.normalize = pnormalize from rfl]
  exact pnormalize_slash_rep n

/-- **C8, counterexample.**  On a non-Windows platform the length check is
never executed: an input whose normalized form exceeds `maxPathLength`
resolves successfully instead of failing with `E_PATH_TOO_LONG`. -/
theorem C8_counterexample :
    (ruNormalized rootOps linuxEnv longPosixInput none).length >
        maxPathLength linuxEnv ∧
      resolveUserPath rootOps linuxEnv longPosixInput none false false =
        .ok longPosixInput := by
  constructor
  · show (ruNormalized rootOps linuxEnv
        ("/" ++ String.mk (List.replicate (4199 + 1) 'a')) none).length > _
    rw [ruNormalized_slash_rep, length_slash_rep]
    decide
  · show resolveUserPath rootOps linuxEnv
        ("/" ++ String.mk (List.replicate (4199 + 1) 'a')) none false false = _
    unfold resolveUserPath
    rw [if_neg (slash_rep_ne_empty 4199)]
    rw [show linuxEnv.isWindows = false from rfl]
    simp only [Bool.false_eq_true, if_false]
    rw [ruNormalized_slash_rep]
    rw [show rootOps.resolve1 = presolve "/" from rfl]
    rw [presolve_slash_rep]
    rfl

/-- **C8, amended.**  The `maxPathLength` check of `resolveUserPath` runs
only inside the `isWindows` branch: on Windows, a normalized candidate
that passes the UNC and long-path checks but exceeds `maxPathLength` is
rejected with `E_PATH_TOO_LONG`; on every other platform no length check
is performed and resolution of a nonempty input always succeeds. -/
theorem C8_length_check_windows_only (ops : PathOps) (env : Env)
    (input : String) (workingDir : Option String)
    (allowUNC allowLongPath : Bool) :
    (env.platform = Platform.windows → input ≠ "" →
      ¬(isUNCPath env (ruNormalized ops env input workingDir) = true ∧
          ¬allowUNC = true) →
      ¬(isLongPath env (ruNormalized ops env input workingDir) = true ∧
          ¬allowLongPath = true) →
      (ruNormalized ops env input workingDir).length > maxPathLength env →
      resolveUserPath ops env input workingDir allowUNC allowLongPath =
        .error .pathTooLong) ∧
    (env.platform ≠ Platform.windows → input ≠ "" →
      (resolveUserPath ops env input workingDir allowUNC allowLongPath).isOk =
        true) := by
  constructor
  · intro hp hne h1 h2 hlen
    have hw : env.isWindows = true := by simp [Env.isWindows, hp]
    simp only [resolveUserPath]
    rw [if_neg hne, hw]
    simp only [if_true]
    rw [if_neg h1, if_neg h2, if_pos hlen]
  · intro hp hne
    have hw : env.isWindows = false := by simp [Env.isWindows, hp]
    simp only [resolveUserPath]
    rw [if_neg hne, hw]
    simp [Except.isOk, Except.toBool]

/-- A `PathOps` instantiation whose `normalize`/`resolve` are the
identity; used only to witness the platform-generic Windows branch of the
theorem above without evaluating a 32801-character normalization. -/
def idOps : PathOps where
  isAbsolute _ := true
  normalize p := p
  resolve1 p := p
  join2 a b := a ++ b
  relative2 _ b := b
  sepChar := '\\'

/-- **C8, witness**: the Windows branch rejects an over-long path with
`E_PATH_TOO_LONG`, while the Linux branch accepts a short one. -/
theorem C8_length_check_windows_only_witness :
    resolveUserPath idOps winEnv longWinInput none false false =
        .error .pathTooLong ∧
      (resolveUserPath rootOps linuxEnv "/abc" none false false).isOk = true :=
  ⟨(C8_length_check_windows_only idOps winEnv longWinInput none false
        false).1 rfl (slash_rep_ne_empty 32799) (by decide) (by decide)
      (by
        show longWinInput.length > maxPathLength winEnv
        unfold longWinInput
        rw [length_slash_rep]
        decide),
    (C8_length_check_windows_only rootOps linuxEnv "/abc" none false
        false).2 (by decide) (by decide)⟩

/-! ## Claim C9 -/

/-- Reachable inactive sessions have no armed handle and no pending
timer: the constructor starts empty, a failed start arms nothing, and
`stop()` clears both maps. -/
lemma inactive_empty_of_reach {s : WSession} (h : WReach s) :
    s.isActive = false → s.watchers = [] ∧ s.timers = [] := by
  induction h with
  | init => exact fun _ => ⟨rfl, rfl⟩
  | start env opts node root fails h ih =>
    unfold startSession
    split
    · exact ih
    · split
      · intro _
        exact ih (Bool.eq_false_iff.mpr (by assumption))
      · intro hina
        simp at hina
  | step h hs ih =>
    cases hs with
    | osEvent dir key hdir =>
      intro hina
      rcases ih hina with ⟨hw, _⟩
      rw [hw] at hdir
      exact absurd hdir (List.not_mem_nil _)
    | timerFire key dropHandle hk =>
      intro hina
      rcases ih hina with ⟨_, ht⟩
      rw [ht] at hk
      exact absurd hk (List.not_mem_nil _)
    | stopCall =>
      unfold stopSession
      split
      · exact fun _ => ⟨rfl, rfl⟩
      · exact ih

lemma stopSession_watchers_empty {u : WSession} (hw : u.watchers = []) :
    (stopSession u).watchers = [] := by
  unfold stopSession
  split
  · rfl
  · exact hw

lemma stopSession_timers_empty {u : WSession} (ht : u.timers = []) :
    (stopSession u).timers = [] := by
  unfold stopSession
  split
  · rfl
  · exact ht

/-- From a session with no handle and no timer, no asynchronous step can
deliver a `change` event. -/
lemma run_no_events_of_empty {s : WSession} {n : Nat} {t : WSession}
    (hr : WRun s n t) : s.watchers = [] → s.timers = [] → n = 0 := by
  induction hr with
  | nil => exact fun _ _ => rfl
  | cons h1 h2 ih =>
    intro hw ht
    cases h1 with
    | osEvent dir key hdir =>
      rw [hw] at hdir
      exact absurd hdir (List.not_mem_nil _)
    | timerFire key dropHandle hk =>
      rw [ht] at hk
      exact absurd hk (List.not_mem_nil _)
    | stopCall =>
      simpa using ih (stopSession_watchers_empty hw) (stopSession_timers_empty ht)

/-- **C9 (confirmed).**  After `stop()` returns on any reachable session,
the session is inactive, the map of active watch handles is empty, every
pending debounce timer is cancelled, and no run of further asynchronous
steps (OS callbacks, timer expiries, repeated stops — anything except a
restart) delivers another `change` event. -/
theorem C9_stop_cleanup (s : WSession) (h : WReach s) :
    (stopSession s).isActive = false ∧
      (stopSession s).watchers = [] ∧
      (stopSession s).timers = [] ∧
      ∀ n t, WRun (stopSession s) n t → n = 0 := by
  have hempty : (stopSession s).watchers = [] ∧ (stopSession s).timers = [] := by
    by_cases hact : s.isActive = true
    · unfold stopSession
      rw [if_pos hact]
      exact ⟨rfl, rfl⟩
    · unfold stopSession
      rw [if_neg hact]
      exact inactive_empty_of_reach h (Bool.eq_false_iff.mpr hact)
  refine ⟨?_, hempty.1, hempty.2, ?_⟩
  · unfold stopSession
    split
    · rfl
    · rename_i hact
      exact Bool.eq_false_iff.mpr hact
  · intro n t hr
    exact run_no_events_of_empty hr hempty.1 hempty.2

/-- An active session with an armed root handle and one pending debounce
timer, reached by `start()` followed by one OS notification. -/
def busySession : WSession :=
  handleFileEventFn
    (startSession linuxEnv (coerceWatchOpts {}) watchTree "/home/alice/d"
        false initialSession).2
    "change:/home/alice/d/x.txt"

lemma busySession_reachable : WReach busySession :=
  WReach.step
    (WReach.start linuxEnv (coerceWatchOpts {}) watchTree "/home/alice/d"
      false WReach.init)
    (WStep.osEvent _ "/home/alice/d" "change:/home/alice/d/x.txt" (by decide))

/-- **C9, witness**: stopping the concrete busy session empties both
maps. -/
theorem C9_stop_cleanup_witness :
    (stopSession busySession).isActive = false ∧
      (stopSession busySession).watchers = [] ∧
      (stopSession busySession).timers = [] :=
  ⟨(C9_stop_cleanup busySession busySession_reachable).1,
    (C9_stop_cleanup busySession busySession_reachable).2.1,
    (C9_stop_cleanup busySession busySession_reachable).2.2.1⟩

/-! ## Claim C10 -/

/-- **C10 (confirmed).**  `start()` on an already-active session throws
`监控器已经在运行` before touching any state, returning the session
unchanged; and when handle registration fails, the catch block resets
`isActive` to false, leaving the session inactive (and arms no handle). -/
theorem C10_start_atomic (env : Env) (opts : WatchOpts) (node : FsEntry)
    (root : String) (setupFails : Bool) (s : WSession) :
    (s.isActive = true →
      startSession env opts node root setupFails s = (.alreadyRunning, s)) ∧
      (s.isActive = false → setupFails = true →
        (startSession env opts node root setupFails s).1 = .startFailed ∧
          (startSession env opts node root setupFails s).2.isActive = false ∧
          (startSession env opts node root setupFails s).2.watchers =
            s.watchers ∧
          (startSession env opts node root setupFails s).2.timers = s.timers) := by
  constructor
  · intro hact
    unfold startSession
    rw [if_pos hact]
  · intro hina hfail
    unfold startSession
    rw [if_neg (by simp [hina]), if_pos hfail]
    exact ⟨rfl, rfl, rfl, rfl⟩

/-- A session that is already running. -/
def activeSession : WSession :=
  { isActive := true, watchers := ["/home/alice/d"], timers := [],
    eventsCount := 0 }

/-- **C10, witness**: the already-active rejection and the failed-start
reset at concrete sessions. -/
theorem C10_start_atomic_witness :
    startSession linuxEnv (coerceWatchOpts {}) watchTree "/home/alice/d" false
        activeSession = (.alreadyRunning, activeSession) ∧
      (startSession linuxEnv (coerceWatchOpts {}) watchTree "/home/alice/d"
          true initialSession).1 = .startFailed ∧
      (startSession linuxEnv (coerceWatchOpts {}) watchTree "/home/alice/d"
          true initialSession).2.isActive = false :=
  ⟨(C10_start_atomic linuxEnv (coerceWatchOpts {}) watchTree "/home/alice/d"
      false activeSession).1 rfl,
    ((C10_start_atomic linuxEnv (coerceWatchOpts {}) watchTree "/home/alice/d"
        true initialSession).2 rfl rfl).1,
    ((C10_start_atomic linuxEnv (coerceWatchOpts {}) watchTree "/home/alice/d"
        true initialSession).2 rfl rfl).2.1⟩

end AxMcp
